/-
Verification of the Flammable snapshot versioning and storage core.

The development shallowly embeds the Python classes of the repository:
  * `snapshot.py`   — `Snapshot`, `SnapshotView`, `DummySnapshot`
  * `experiment.py` — `Experiment`, `LocalView`, the experiment-side `Snapshot`
                      (called `ESnap` here to avoid a name clash)
  * `library.py` / `flammable/library.py` — `Local.commit`, `Library.load_experiments`

JSON documents are embedded as an inductive `JValue`; Python dicts are
insertion-ordered association lists; the file system of one snapshot
directory is an association list from file names to file data.
Randomness (`random.randint`) is embedded as an explicit list of draws, and
the wall clock (`datetime.datetime.now()`) as an explicit argument.
-/
import Mathlib

namespace Flammable

/-- JSON-representable values, as produced/consumed by Python's `json` module. -/
inductive JValue where
  | null
  | bool (b : Bool)
  | str (s : String)
  | num (n : Int)
  | arr (elems : List JValue)
  | obj (fields : List (String × JValue))

/-- In-memory state of `snapshot.Snapshot`: the containing folder path, the
five immutable fields (Python initialises them to `None`, hence `Option`),
and the five mutable fields.  Dicts are insertion-ordered association
lists, mirroring Python dict semantics. -/
structure Snapshot where
  root_path : String
  uid : Option String
  commit_sha : Option String
  timestamp : Option String
  filename : Option String
  comment : Option String
  train_data : List (String × JValue)
  val_data : List (String × JValue)
  test_data : List (String × JValue)
  model_files : List String
  custom_data : List (String × JValue)

/-- Encoding of a Python `str`-or-`None` field into JSON. -/
def optStrJ : Option String → JValue
  | none => .null
  | some v => .str v

/-- The JSON object `Snapshot.serialize` writes to `snapshot.json`,
with the ten keys in the order the source lists them. -/
def Snapshot.serialize (s : Snapshot) : JValue :=
  .obj [
    ("uid", optStrJ s.uid),
    ("commit_sha", optStrJ s.commit_sha),
    ("timestamp", optStrJ s.timestamp),
    ("filename", optStrJ s.filename),
    ("comment", optStrJ s.comment),
    ("train_data", .obj s.train_data),
    ("val_data", .obj s.val_data),
    ("test_data", .obj s.test_data),
    ("model_files", .arr (s.model_files.map JValue.str)),
    ("custom_data", .obj s.custom_data)
  ]

/-- Decode a JSON value back into a `str`-or-`None` field. -/
def decOptStr : JValue → Option (Option String)
  | .null => some none
  | .str v => some (some v)
  | _ => none

/-- Decode a JSON object into an association list (a Python dict field). -/
def decObj : JValue → Option (List (String × JValue))
  | .obj fs => some fs
  | _ => none

/-- Decode a JSON array of strings (the `model_files` field). -/
def decStrList : List JValue → Option (List String)
  | [] => some []
  | .str v :: rest => (decStrList rest).map (v :: ·)
  | _ :: _ => none

/-- One step of `Snapshot.deserialize`'s loop
`for key, val in data.items(): self.__dict__[key] = val`:
assign the value to the named attribute.  Keys outside the modelled field
set become plain extra attributes in Python and are ignored here; a value
whose shape does not fit the typed field cannot arise from `serialize` and
is rejected. -/
def setField (s : Snapshot) (k : String) (v : JValue) : Option Snapshot :=
  if k = "uid" then (decOptStr v).map (fun x => { s with uid := x })
  else if k = "commit_sha" then (decOptStr v).map (fun x => { s with commit_sha := x })
  else if k = "timestamp" then (decOptStr v).map (fun x => { s with timestamp := x })
  else if k = "filename" then (decOptStr v).map (fun x => { s with filename := x })
  else if k = "comment" then (decOptStr v).map (fun x => { s with comment := x })
  else if k = "train_data" then (decObj v).map (fun x => { s with train_data := x })
  else if k = "val_data" then (decObj v).map (fun x => { s with val_data := x })
  else if k = "test_data" then (decObj v).map (fun x => { s with test_data := x })
  else if k = "model_files" then
    match v with
    | .arr es => (decStrList es).map (fun x => { s with model_files := x })
    | _ => none
  else if k = "custom_data" then (decObj v).map (fun x => { s with custom_data := x })
  else some s

/-- Embeds `Snapshot.deserialize`: load the JSON document and overwrite the
current state, one key at a time.  `json.load` of a non-object has no `.items()`. -/
def Snapshot.deserialize (doc : JValue) (s : Snapshot) : Option Snapshot :=
  match doc with
  | .obj fields => fields.foldlM (fun acc kv => setField acc kv.1 kv.2) s
  | _ => none

theorem decOptStr_optStrJ (x : Option String) : decOptStr (optStrJ x) = some x := by
  cases x <;> rfl

theorem decStrList_map (l : List String) :
    decStrList (l.map JValue.str) = some l := by
  induction l with
  | nil => rfl
  | cons a t ih => simp [decStrList, ih]

/-- Claim C2: for any Snapshot `s` (whose persisted fields hold
JSON-representable values by construction of the embedding), deserializing
the document written by `s.serialize` reproduces all ten persisted fields
exactly, whatever state `t` the loading instance starts in: deserialize
after serialize is the identity on the persisted field set. -/
theorem serialize_deserialize_roundtrip (s t : Snapshot) :
    Snapshot.deserialize (Snapshot.serialize s) t =
      some { t with
        uid := s.uid, commit_sha := s.commit_sha, timestamp := s.timestamp,
        filename := s.filename, comment := s.comment,
        train_data := s.train_data, val_data := s.val_data,
        test_data := s.test_data, model_files := s.model_files,
        custom_data := s.custom_data } := by
  simp [Snapshot.deserialize, Snapshot.serialize, List.foldlM, setField,
    decOptStr_optStrJ, decObj, decStrList_map]

/-! ## The snapshot directory and `Snapshot.reset` -/

/-- Contents of a file in the snapshot directory: the JSON metadata document
or an opaque asset blob. -/
inductive FileData where
  | doc (v : JValue)
  | blob (bytes : String)

/-- A snapshot directory: an association list from file names to contents. -/
abbrev SnapDir := List (String × FileData)

/-- Write (create or truncate) a file: replace in place if the name exists,
otherwise append a fresh directory entry. -/
def writeFile (d : SnapDir) (name : String) (v : FileData) : SnapDir :=
  if d.any (fun e => e.1 = name) then
    d.map (fun e => if e.1 = name then (name, v) else e)
  else
    d ++ [(name, v)]

/-- A snapshot together with its directory: the in-memory object plus the
on-disk state that `serialize` targets. -/
structure SnapFS where
  snap : Snapshot
  dir : SnapDir

/-- Embeds `serialize` at the file-system level: write the JSON document to
`snapshot.json` in the snapshot's folder. -/
def serializeFS (fs : SnapFS) : SnapFS :=
  { fs with dir := writeFile fs.dir "snapshot.json" (.doc fs.snap.serialize) }

/-- The loop `for item in os.scandir(self.root_path): os.remove(item.path)`:
iterate over the (pre-taken) directory listing, removing each listed name
from the directory. -/
def removeAllFiles (d : SnapDir) : SnapDir :=
  d.foldl (fun acc item => acc.filter (fun e => e.1 ≠ item.1)) d

/-- Clearing of the five mutable fields, as done by `Snapshot.reset` (and,
alone, by `DummySnapshot.reset`). -/
def clearMutables (s : Snapshot) : Snapshot :=
  { s with train_data := [], val_data := [], test_data := [],
           model_files := [], custom_data := [] }

/-- Embeds `Snapshot.reset`: clear the mutable fields, remove every file listed in
the snapshot directory, then re-serialize. -/
def Snapshot.reset (fs : SnapFS) : SnapFS :=
  serializeFS { snap := clearMutables fs.snap, dir := removeAllFiles fs.dir }

/-- Embeds `DummySnapshot.reset`: it only clears the in-memory mutable fields. -/
def DummySnapshot.reset (s : Snapshot) : Snapshot :=
  clearMutables s

theorem foldl_removeNames (items : List (String × FileData)) (acc : SnapDir) :
    items.foldl (fun a item => a.filter (fun e => e.1 ≠ item.1)) acc =
      acc.filter (fun e => items.all (fun item => decide (e.1 ≠ item.1))) := by
  induction items generalizing acc with
  | nil => simp
  | cons i is ih =>
    simp only [List.foldl_cons, ih, List.filter_filter, List.all_cons]
    congr 1
    funext e
    cases h1 : decide (e.1 ≠ i.1) <;> cases h2 : is.all (fun item => decide (e.1 ≠ item.1)) <;> simp [h1, h2]

/-- Every name listed in the directory is removed, so the delete loop leaves
the directory empty. -/
theorem removeAllFiles_eq_nil (d : SnapDir) : removeAllFiles d = [] := by
  unfold removeAllFiles
  rw [foldl_removeNames]
  apply List.filter_eq_nil_iff.mpr
  intro e he
  simp only [List.all_eq_true]
  push_neg
  exact ⟨e, he, by simp⟩

/-- A concrete snapshot directory holding the metadata document and one
asset file. -/
def exampleDir : SnapDir :=
  [("snapshot.json", .doc (.obj [("uid", .str "abcde")])),
   ("weights.pt", .blob "w")]

/-- Claim C5, counterexample: on a directory holding `snapshot.json` and one
asset, the delete phase of `Snapshot.reset` removes `snapshot.json` as
well: the claim's "deletes all files ... except the metadata document
(snapshot.json)" is false — no file is excepted from deletion. -/
theorem reset_delete_phase_removes_metadata :
    ("snapshot.json" ∈ exampleDir.map Prod.fst) ∧
      ¬ ("snapshot.json" ∈ (removeAllFiles exampleDir).map Prod.fst) := by
  refine ⟨by simp [exampleDir], ?_⟩
  rw [removeAllFiles_eq_nil]
  simp

/-- The immutable identity of a snapshot: folder path plus the five fields
set once at creation. -/
def immutFields (s : Snapshot) :
    String × Option String × Option String × Option String × Option String × Option String :=
  (s.root_path, s.uid, s.commit_sha, s.timestamp, s.filename, s.comment)

/-- Claim C5 as amended: `Snapshot.reset` clears every mutable field to its
empty state, deletes all files physically present in the snapshot
directory — including the metadata document — and then re-serializes,
which recreates `snapshot.json`; afterwards the directory holds exactly
the freshly serialized metadata document, and the immutable fields are
untouched. -/
theorem reset_spec (fs : SnapFS) :
    Snapshot.reset fs =
      { snap := clearMutables fs.snap,
        dir := [("snapshot.json", .doc (clearMutables fs.snap).serialize)] } ∧
    immutFields (Snapshot.reset fs).snap = immutFields fs.snap := by
  constructor
  · unfold Snapshot.reset serializeFS
    rw [removeAllFiles_eq_nil]
    rfl
  · rfl

/-- Claim C6: `reset` is idempotent — a second `reset` yields exactly the state
after the first, the immutable fields survive any number of resets, and
`DummySnapshot.reset` (which only clears in-memory state) is idempotent as
well. -/
theorem reset_idempotent (fs : SnapFS) (s : Snapshot) (n : Nat) :
    Snapshot.reset (Snapshot.reset fs) = Snapshot.reset fs ∧
    immutFields ((Snapshot.reset)^[n] fs).snap = immutFields fs.snap ∧
    DummySnapshot.reset (DummySnapshot.reset s) = DummySnapshot.reset s := by
  refine ⟨?_, ?_, rfl⟩
  · unfold Snapshot.reset serializeFS
    rw [removeAllFiles_eq_nil, removeAllFiles_eq_nil]
    rfl
  · induction n with
    | zero => rfl
    | succ m ih =>
      rw [Function.iterate_succ_apply']
      rw [show ∀ g : SnapFS, immutFields (Snapshot.reset g).snap = immutFields g.snap
            from fun g => rfl]
      exact ih

/-! ## Scoped storage views (`SnapshotView`) -/

/-- Python exceptions raised by the view operations. -/
inductive PyError where
  | runtimeError (msg : String)
  | attributeError

/-- Python dict assignment `d[k] = v`: replace the entry in place when the
key exists, otherwise append a fresh entry. -/
def assocSet {α : Type} (d : List (String × α)) (k : String) (v : α) :
    List (String × α) :=
  if d.any (fun e => e.1 = k) then
    d.map (fun e => if e.1 = k then (k, v) else e)
  else
    d ++ [(k, v)]

/-- The four mutable dict buckets a view can target (`train_storage`,
`val_storage`, `test_storage`, `custom_storage`). -/
inductive Bucket where
  | train
  | val
  | test
  | custom

/-- Read the dict a bucket selector aliases. -/
def getBucket : Bucket → Snapshot → List (String × JValue)
  | .train, s => s.train_data
  | .val, s => s.val_data
  | .test, s => s.test_data
  | .custom, s => s.custom_data

/-- Write through the alias back into the parent snapshot. -/
def setBucket : Bucket → List (String × JValue) → Snapshot → Snapshot
  | .train, d, s => { s with train_data := d }
  | .val, d, s => { s with val_data := d }
  | .test, d, s => { s with test_data := d }
  | .custom, d, s => { s with custom_data := d }

/-- State of a `SnapshotView` together with its parent snapshot and the
snapshot directory the parent serializes into.  `data` aliases one of the
parent's dicts (captured by `bucket`); `ready` is the scope flag, `False`
at construction. -/
structure ViewState where
  snap : Snapshot
  dir : SnapDir
  bucket : Bucket
  ready : Bool

/-- Construction of a view by one of the `*_storage` methods. -/
def mkView (fs : SnapFS) (b : Bucket) : ViewState :=
  { snap := fs.snap, dir := fs.dir, bucket := b, ready := false }

/-- Embeds `SnapshotView.store`: raise `RuntimeError` unless the context has been
entered; otherwise overwrite the entry under the given name.  The error
case returns the state untouched, as the exception is raised before any
mutation. -/
def SnapshotView.store (name : String) (value : JValue) (v : ViewState) :
    ViewState × Option PyError :=
  if !v.ready then
    (v, some (.runtimeError "SnapshotView is a context manager. Never use it directly!"))
  else
    ({ v with snap := setBucket v.bucket (assocSet (getBucket v.bucket v.snap) name value) v.snap },
     none)

/-- Embeds `SnapshotView.append`: raise `RuntimeError` outside the scope; create
the per-key list on first use (`KeyError` branch), then push the value.
Appending under a key holding a non-list raises `AttributeError`. -/
def SnapshotView.append (name : String) (value : JValue) (v : ViewState) :
    ViewState × Option PyError :=
  if !v.ready then
    (v, some (.runtimeError "SnapshotView is a context manager. Never use it directly!"))
  else
    match List.lookup name (getBucket v.bucket v.snap) with
    | none =>
        ({ v with snap := setBucket v.bucket (assocSet (getBucket v.bucket v.snap) name (.arr [value])) v.snap }, none)
    | some (.arr xs) =>
        ({ v with snap := setBucket v.bucket (assocSet (getBucket v.bucket v.snap) name (.arr (xs ++ [value]))) v.snap }, none)
    | some _ => (v, some .attributeError)

/-- Embeds `SnapshotView.__enter__`: it currently only marks the view ready. -/
def SnapshotView.enterScope (v : ViewState) : ViewState :=
  { v with ready := true }

/-- Embeds `SnapshotView.__exit__`: the parent snapshot serializes (writing its
current in-memory state to `snapshot.json`), then the view is closed. -/
def SnapshotView.exitScope (v : ViewState) : ViewState :=
  { v with dir := writeFile v.dir "snapshot.json" (.doc v.snap.serialize),
           ready := false }

/-- Claim C4: outside the active scope (at construction, and again after
exit) `store` and `append` fail with a `RuntimeError` and leave the state
untouched; inside the scope `store` overwrites the entry and `append`
pushes onto a per-key list created on first use; and scope exit
unconditionally serializes the parent snapshot into `snapshot.json` and
closes the view, so every mutation made inside the scope is flushed. -/
theorem snapshotView_scope_discipline (v : ViewState) (name : String) (value : JValue) :
    (v.ready = false →
      (∃ e, SnapshotView.store name value v = (v, some (.runtimeError e))) ∧
      (∃ e, SnapshotView.append name value v = (v, some (.runtimeError e))) ∧
      (mkView ⟨v.snap, v.dir⟩ v.bucket).ready = false ∧
      (SnapshotView.exitScope (SnapshotView.enterScope v)).ready = false) ∧
    (v.ready = true →
      SnapshotView.store name value v =
        ({ v with snap := setBucket v.bucket (assocSet (getBucket v.bucket v.snap) name value) v.snap }, none)) ∧
    (v.ready = true → List.lookup name (getBucket v.bucket v.snap) = none →
      SnapshotView.append name value v =
        ({ v with snap := setBucket v.bucket (assocSet (getBucket v.bucket v.snap) name (.arr [value])) v.snap }, none)) ∧
    (∀ xs, v.ready = true →
      List.lookup name (getBucket v.bucket v.snap) = some (.arr xs) →
      SnapshotView.append name value v =
        ({ v with snap := setBucket v.bucket (assocSet (getBucket v.bucket v.snap) name (.arr (xs ++ [value]))) v.snap }, none)) ∧
    ((SnapshotView.exitScope v).dir =
        writeFile v.dir "snapshot.json" (.doc v.snap.serialize) ∧
      (SnapshotView.exitScope v).ready = false) := by
  refine ⟨?_, ?_, ?_, ?_, rfl, rfl⟩
  · intro h
    refine ⟨⟨"SnapshotView is a context manager. Never use it directly!", ?_⟩,
      ⟨"SnapshotView is a context manager. Never use it directly!", ?_⟩, rfl, rfl⟩ <;>
      simp [SnapshotView.store, SnapshotView.append, h]
  · intro h
    simp [SnapshotView.store, h]
  · intro h hl
    simp [SnapshotView.append, h, hl]
  · intro xs h hl
    simp [SnapshotView.append, h, hl]

/-- Closed instantiation of the scope-discipline theorem: a concrete view
on an empty snapshot, exercising the not-ready error, the ready `store`,
and both `append` branches. -/
theorem snapshotView_scope_discipline_witness :
    (∃ e, SnapshotView.store "k" (.num 7)
        (mkView ⟨⟨"/tmp/s", none, none, none, none, none, [], [], [], [], []⟩, []⟩ .train) =
      (mkView ⟨⟨"/tmp/s", none, none, none, none, none, [], [], [], [], []⟩, []⟩ .train,
        some (.runtimeError e))) ∧
    SnapshotView.store "k" (.num 7)
        (SnapshotView.enterScope
          (mkView ⟨⟨"/tmp/s", none, none, none, none, none, [], [], [], [], []⟩, []⟩ .train)) =
      ({ snap := ⟨"/tmp/s", none, none, none, none, none, [("k", .num 7)], [], [], [], []⟩,
         dir := [], bucket := .train, ready := true }, none) := by
  constructor
  · exact ((snapshotView_scope_discipline
      (mkView ⟨⟨"/tmp/s", none, none, none, none, none, [], [], [], [], []⟩, []⟩ .train)
      "k" (.num 7)).1 rfl).1
  · exact (snapshotView_scope_discipline
      (SnapshotView.enterScope
        (mkView ⟨⟨"/tmp/s", none, none, none, none, none, [], [], [], [], []⟩, []⟩ .train))
      "k" (.num 7)).2.1 rfl

/-! ## Reload-before-write (claim C3) -/

/-- Modelled from the spec: the "reload-before-write" discipline — the
`Snapshot` class docstring promises that a handle re-reads the metadata
document immediately before any serialize, never trusting in-memory state
accumulated since the last load.  No code path of `snapshot.py` implements
this (the view's `__enter__` "currently does nothing" and `__exit__`
serializes directly); this definition renders the promised behaviour for
comparison with the implemented `SnapshotView.exitScope`. -/
def exitScopeReload (v : ViewState) : ViewState :=
  let reloaded :=
    match List.lookup "snapshot.json" v.dir with
    | some (.doc doc) => (Snapshot.deserialize doc v.snap).getD v.snap
    | _ => v.snap
  { v with snap := reloaded,
           dir := writeFile v.dir "snapshot.json" (.doc reloaded.serialize),
           ready := false }

/-- A snapshot instance whose in-memory state is stale: it was loaded
before another process wrote its training results. -/
def staleSnap : Snapshot :=
  ⟨"/data/exp/assets/20200101-000000-abcde", some "abcde", some "f00dbabe",
   some "20200101-000000", some "test.py", some "initial", [], [], [], [], []⟩

/-- The snapshot state another live instance of the same directory has
meanwhile persisted (one training metric recorded). -/
def concurrentSnap : Snapshot :=
  { staleSnap with train_data := [("loss", .num 1)] }

/-- The metadata document on disk at scope-exit time. -/
def concurrentDoc : JValue := concurrentSnap.serialize

/-- A view over the stale instance, scope entered, about to exit. -/
def raceView : ViewState :=
  { snap := staleSnap,
    dir := [("snapshot.json", .doc concurrentDoc)],
    bucket := .train, ready := true }

/-- Claim C3: the code does not re-read the metadata document before the
serialize performed at scope exit: exiting the scope of `raceView` writes
the stale in-memory state over `snapshot.json`, producing a document
different from the one on disk (the concurrently persisted `train_data`
is lost), whereas the reload-before-write discipline the claim (and the
class's own docstring) describes would have preserved it. -/
theorem exit_serialize_skips_reload :
    (SnapshotView.exitScope raceView).dir =
        [("snapshot.json", FileData.doc staleSnap.serialize)] ∧
    (exitScopeReload raceView).dir =
        [("snapshot.json", FileData.doc concurrentDoc)] ∧
    staleSnap.serialize ≠ concurrentDoc := by
  refine ⟨rfl, rfl, ?_⟩
  simp [Snapshot.serialize, concurrentDoc, concurrentSnap, staleSnap, optStrJ]

/-! ## Identifier allocation and snapshot creation (`experiment.py`) -/

/-- The digit-extraction loop of `Snapshot.generate_id`: five iterations of
`d = number % 26; number //= 26`, least-significant digit first. -/
def genDigits : Nat → Nat → List Nat
  | 0, _ => []
  | n + 1, number => number % 26 :: genDigits n (number / 26)

/-- Embeds `Snapshot.generate_id`, applied to one draw of `random.randint(0, 26^5 - 1)`:
the five digits, reversed to most-significant-first, rendered as
characters `chr(ord('a') + d)`. -/
def generate_id (draw : Nat) : String :=
  String.mk ((genDigits 5 draw).reverse.map (fun d => Char.ofNat (Char.toNat 'a' + d)))

/-- The retry loop of `Snapshot.create`: repeatedly draw an identifier,
rejecting any that collides with the experiment's id set.  The stream of
random draws is explicit; the Python loop is unbounded, so an exhausted
stream yields `none`. -/
def allocate : List Nat → List String → Option String
  | [], _ => none
  | d :: rest, ids =>
      if generate_id d ∈ ids then allocate rest ids else some (generate_id d)

/-- Local wall-clock time at second precision, the input of
`datetime.datetime.now()` as used by `Snapshot.get_datetime`. -/
structure DateTime6 where
  year : Nat
  month : Nat
  day : Nat
  hour : Nat
  minute : Nat
  second : Nat

/-- Python `'{:0>2}'.format(n)`: left-pad the decimal rendering to width 2. -/
def pad2 (n : Nat) : String :=
  if n < 10 then "0" ++ toString n else toString n

/-- Embeds `Snapshot.get_datetime`: format the current date and time as
`YYYYMMDD-HHMMSS` (the year is rendered unpadded). -/
def get_datetime (now : DateTime6) : String :=
  toString now.year ++ pad2 now.month ++ pad2 now.day ++ "-" ++
    pad2 now.hour ++ pad2 now.minute ++ pad2 now.second

/-- A commit of the experiment repository: its SHA and its committer
timestamp (which `experiment.py` never reads). -/
structure GitCommit where
  hexsha : String
  committerTime : DateTime6

/-- The experiment-side snapshot record of `experiment.py` (distinct from
`snapshot.py`'s `Snapshot`). -/
structure ESnap where
  sid : String
  timestamp : String
  comment : String
  hexsha : String
  filename : String
  metrics : List (String × JValue)

/-- Embeds `Snapshot.create` (experiment side): take the timestamp from the wall
clock, allocate a fresh id against the parent's id set, build the record. -/
def ESnap.create (ids : List String) (draws : List Nat) (now : DateTime6)
    (comment hexsha filename : String) : Option ESnap :=
  (allocate draws ids).map
    (fun sid => ⟨sid, get_datetime now, comment, hexsha, filename, []⟩)

/-- State of an `Experiment`: the repository's commits (latest first), the
snapshot registry and the id set kept in sync with it.  (Persistence of
the registry to `data.json` is a plain disk write and is not modelled.) -/
structure ExpState where
  commits : List GitCommit
  snapshots : List ESnap
  ids : List String

/-- Embeds `Experiment.create_snapshot`: read the latest commit's SHA (the Python
loop leaves `hexsha` unbound when there are no commits, hence `none`),
create the snapshot, append it to the registry and add its id. -/
def Experiment.create_snapshot (exp : ExpState) (draws : List Nat)
    (now : DateTime6) (message filename : String) : Option (ESnap × ExpState) :=
  match exp.commits with
  | [] => none
  | commit :: _ =>
      (ESnap.create exp.ids draws now message commit.hexsha filename).map
        (fun snap =>
          (snap, { exp with snapshots := exp.snapshots ++ [snap],
                            ids := exp.ids ++ [snap.sid] }))

theorem allocate_fresh (draws : List Nat) (ids : List String) (sid : String)
    (h : allocate draws ids = some sid) :
    sid ∉ ids ∧ ∃ d, sid = generate_id d := by
  induction draws with
  | nil => simp [allocate] at h
  | cons d rest ih =>
    by_cases hm : generate_id d ∈ ids
    · rw [allocate, if_pos hm] at h
      exact ih h
    · rw [allocate, if_neg hm] at h
      cases h
      exact ⟨hm, d, rfl⟩

theorem genDigits_lt (n number : Nat) : ∀ d ∈ genDigits n number, d < 26 := by
  induction n generalizing number with
  | zero => simp [genDigits]
  | succ m ih =>
    intro d hd
    rw [genDigits] at hd
    rcases List.mem_cons.mp hd with h | h
    · rw [h]; exact Nat.mod_lt _ (by norm_num)
    · exact ih _ d h

theorem genDigits_length (n number : Nat) : (genDigits n number).length = n := by
  induction n generalizing number with
  | zero => rfl
  | succ m ih => rw [genDigits]; simp [ih]

theorem char_of_digit_range (d : Nat) (hd : d < 26) :
    'a' ≤ Char.ofNat (Char.toNat 'a' + d) ∧ Char.ofNat (Char.toNat 'a' + d) ≤ 'z' := by
  interval_cases d <;> exact ⟨by decide, by decide⟩

theorem generate_id_shape (draw : Nat) :
    (generate_id draw).length = 5 ∧
      ∀ c ∈ (generate_id draw).data, 'a' ≤ c ∧ c ≤ 'z' := by
  constructor
  · show ((genDigits 5 draw).reverse.map _).length = 5
    simp [genDigits_length]
  · intro c hc
    simp only [generate_id, String.mk] at hc
    rcases List.mem_map.mp hc with ⟨d, hd, hcd⟩
    have : d < 26 := genDigits_lt 5 draw d (List.mem_reverse.mp hd)
    rw [← hcd]
    exact char_of_digit_range d this

/-- Claim C1: whenever `Experiment.create_snapshot` returns a snapshot, its
id was allocated by the retry loop against the experiment's id set: the id
is a 5-character lowercase a–z string not present in the id set at
creation time, the id set grows by exactly that id, and the no-two-
snapshots-share-a-uid invariant (no duplicates in the id set) is
preserved. -/
theorem create_snapshot_unique_id (exp : ExpState) (draws : List Nat)
    (now : DateTime6) (message filename : String) (res : ESnap × ExpState)
    (h : Experiment.create_snapshot exp draws now message filename = some res)
    (hnd : exp.ids.Nodup) :
    res.1.sid ∉ exp.ids ∧ res.2.ids = exp.ids ++ [res.1.sid] ∧ res.2.ids.Nodup ∧
      res.1.sid.length = 5 ∧ ∀ c ∈ res.1.sid.data, 'a' ≤ c ∧ c ≤ 'z' := by
  match hc : exp.commits with
  | [] => rw [Experiment.create_snapshot, hc] at h; cases h
  | commit :: rest =>
    rw [Experiment.create_snapshot, hc] at h
    match ha : allocate draws exp.ids with
    | none => simp [ESnap.create, ha] at h
    | some sid =>
      simp only [ESnap.create, ha, Option.map_some] at h
      injection h with h2
      subst h2
      obtain ⟨hfresh, d, hd⟩ := allocate_fresh draws exp.ids sid ha
      refine ⟨hfresh, rfl, ?_, hd ▸ (generate_id_shape d).1,
        hd ▸ (generate_id_shape d).2⟩
      show (exp.ids ++ [sid]).Nodup
      refine List.nodup_append.mpr ⟨hnd, List.nodup_singleton _, ?_⟩
      intro a ha2 hb
      rw [List.mem_singleton] at hb
      subst hb
      exact hfresh ha2

/-- An experiment whose id set already contains the identifier produced by
draw `0`, forcing the retry path. -/
def expW : ExpState :=
  ⟨[⟨"f00dbabe", ⟨2019, 9, 26, 12, 38, 19⟩⟩], [], ["aaaaa"]⟩

/-- The wall clock at the witness creation. -/
def dtW : DateTime6 := ⟨2019, 9, 26, 12, 38, 19⟩

/-- The snapshot the witness creation returns: draw `0` collides with
`"aaaaa"`, the retry with draw `1` yields `"aaaab"`. -/
def snapW : ESnap := ⟨"aaaab", "20190926-123819", "msg", "f00dbabe", "test.py", []⟩

/-- The experiment state after the witness creation. -/
def expW2 : ExpState := ⟨expW.commits, [snapW], ["aaaaa", "aaaab"]⟩

/-- Closed instantiation of the uniqueness theorem, exercising the
collision-retry path: draw `0` reproduces the existing id `"aaaaa"` and is
rejected; the returned id `"aaaab"` is fresh and the id set stays
duplicate-free. -/
theorem create_snapshot_unique_id_witness :
    "aaaab" ∉ expW.ids ∧ (["aaaaa", "aaaab"] : List String).Nodup := by
  have h := create_snapshot_unique_id expW [0, 1] dtW "msg" "test.py" (snapW, expW2)
    rfl (by decide)
  exact ⟨h.1, h.2.2.1⟩

/-- An experiment whose only commit carries a committer timestamp far in
the past of the wall clock. -/
def expC7 : ExpState := ⟨[⟨"deadbeef", ⟨2020, 1, 1, 0, 0, 0⟩⟩], [], []⟩

/-- The wall clock at the moment the C7 snapshot is created. -/
def nowC7 : DateTime6 := ⟨2026, 10, 12, 9, 30, 0⟩

/-- Claim C7, counterexample: the timestamp of a newly created snapshot is
`datetime.datetime.now()` formatted, not the referenced commit's committer
time: on `expC7` — whose only commit was committed at
2020-01-01 00:00:00 — a snapshot created when the wall clock reads
2026-10-12 09:30:00 records `"20261012-093000"`, which differs from the
`"20200101-000000"` the claim's committer-time derivation would give. -/
theorem timestamp_ignores_committer_time :
    (Experiment.create_snapshot expC7 [0] nowC7 "m" "f.py").map
        (fun p => p.1.timestamp) = some "20261012-093000" ∧
    expC7.commits.map (fun c => get_datetime c.committerTime) = ["20200101-000000"] ∧
    ("20261012-093000" : String) ≠ "20200101-000000" := by
  exact ⟨rfl, rfl, by decide⟩

/-- Claim C7 as amended: the timestamp recorded in a newly created snapshot is
the current local wall-clock time (`datetime.datetime.now()`) at creation,
at second precision, formatted by `get_datetime` as `YYYYMMDD-HHMMSS`; the
referenced commit's committer time plays no role. -/
theorem create_snapshot_timestamp_wallclock (exp : ExpState) (draws : List Nat)
    (now : DateTime6) (message filename : String) (res : ESnap × ExpState)
    (h : Experiment.create_snapshot exp draws now message filename = some res) :
    res.1.timestamp = get_datetime now := by
  match hc : exp.commits with
  | [] => rw [Experiment.create_snapshot, hc] at h; cases h
  | commit :: rest =>
    rw [Experiment.create_snapshot, hc] at h
    match ha : allocate draws exp.ids with
    | none => simp [ESnap.create, ha] at h
    | some sid =>
      simp only [ESnap.create, ha, Option.map_some] at h
      injection h with h2
      subst h2
      rfl

/-- The snapshot created in the wall-clock witness. -/
def snapC7 : ESnap := ⟨"aaaaa", "20261012-093000", "m", "deadbeef", "f.py", []⟩

/-- The experiment state after the wall-clock witness creation. -/
def expC7b : ExpState := ⟨expC7.commits, [snapC7], ["aaaaa"]⟩

/-- Closed instantiation of the amended timestamp theorem at the concrete
creation of `snapC7`. -/
theorem create_snapshot_timestamp_wallclock_witness :
    snapC7.timestamp = get_datetime nowC7 := by
  exact create_snapshot_timestamp_wallclock expC7 [0] nowC7 "m" "f.py"
    (snapC7, expC7b) rfl

/-! ## Committing local changes (`LocalView.commit`) -/

/-- The exclusion set of `LocalView` / `Local`. -/
def EXCLUDE : List String := [".git", "__pycache__"]

/-- Python `f.startswith(ex)`: `ex`'s characters lead `f`'s. -/
def pyStartsWith (f ex : String) : Bool :=
  ex.data.isPrefixOf f.data

/-- Python-style suffix test, used for `os.path.join`'s separator check. -/
def pyEndsWith (s t : String) : Bool :=
  t.data.isSuffixOf s.data

/-- The untracked-file filter of `commit`:
`f not in EXCLUDE and not any(f.startswith(ex) for ex in EXCLUDE)`. -/
def notExcluded (f : String) : Bool :=
  !(EXCLUDE.contains f) && !(EXCLUDE.any (fun ex => pyStartsWith f ex))

/-- Observable repository state at the moment `commit` is called:
`modified` is `index.diff(None)` (modified or deleted tracked paths),
`untracked` is `repo.untracked_files`, and `commits` the commit log,
latest first. -/
structure LocalRepoState where
  modified : List String
  untracked : List String
  commits : List String
deriving DecidableEq

/-- Embeds `LocalView.commit`: detect changes, and commit exactly when the
combined change set is non-empty, returning whether a commit was made.
The staging performed by `index.add` inside the git backend only affects
the working-tree bookkeeping, which the claim does not observe; the
embedded state keeps the fields as sampled at call time and records the
new commit. -/
def LocalView.commit (message : String) (r : LocalRepoState) :
    LocalRepoState × Bool :=
  let is_changed := decide (r.modified.length > 0)
  let has_untracked := decide ((r.untracked.filter notExcluded).length > 0)
  let should_commit := is_changed || has_untracked
  if should_commit then
    ({ r with commits := message :: r.commits }, true)
  else
    (r, false)

/-- Claim C8: `commit(message)` creates a new commit if and only if the set
of modified/deleted tracked files plus untracked files not matching an
exclusion prefix (`.git`, `__pycache__`) is non-empty, returns whether a
commit was made, and with no changes it is a no-op that leaves the
repository state untouched. -/
theorem localView_commit_iff (message : String) (r : LocalRepoState) :
    ((LocalView.commit message r).2 = true ↔
        r.modified ≠ [] ∨ r.untracked.filter notExcluded ≠ []) ∧
    ((LocalView.commit message r).2 = true →
        (LocalView.commit message r).1.commits = message :: r.commits) ∧
    ((LocalView.commit message r).2 = false →
        LocalView.commit message r = (r, false)) := by
  unfold LocalView.commit
  by_cases hm : r.modified.length > 0
  · simp [hm, List.length_pos_iff_ne_nil.mp hm]
  · have hm2 : r.modified = [] := by
      cases hme : r.modified with
      | nil => rfl
      | cons a t => rw [hme] at hm; simp at hm
    by_cases hu : (r.untracked.filter notExcluded).length > 0
    · simp [hm2, hu, List.length_pos_iff_ne_nil.mp hu]
    · have hu2 : r.untracked.filter notExcluded = [] := by
        cases hue : r.untracked.filter notExcluded with
        | nil => rfl
        | cons a t => rw [hue] at hu; simp at hu
      simp [hm2, hu2]

/-- A working tree with one modified tracked file. -/
def repoChanged : LocalRepoState := ⟨["train.py"], [], []⟩

/-- A clean working tree whose only untracked files all match an exclusion
prefix, so they do not count as changes. -/
def repoClean : LocalRepoState := ⟨[], ["__pycache__/train.cpython-37.pyc", ".gitignore"], ["old"]⟩

/-- Closed instantiation of the commit-iff theorem: the modified tree
gains exactly one commit, and the tree with only excluded untracked files
is left untouched with `False` returned. -/
theorem localView_commit_iff_witness :
    (LocalView.commit "m" repoChanged).1.commits = ["m"] ∧
    LocalView.commit "m" repoClean = (repoClean, false) := by
  refine ⟨(localView_commit_iff "m" repoChanged).2.1 (by decide),
    (localView_commit_iff "m" repoClean).2.2 (by decide)⟩

/-! ## Experiment discovery (`Library.load_experiments`, `Experiment.verify`) -/

/-- What the file system shows for one candidate subdirectory of the
storage root, together with whether its parts are actually loadable. -/
structure ExpCandidate where
  name : String
  isDir : Bool
  hasRepoDir : Bool
  hasAssetsDir : Bool
  hasDataFile : Bool
  repoOpens : Bool
  dataParses : Bool
deriving DecidableEq

/-- Embeds `Experiment.verify`, exactly as written in the source: the `repo`
subdirectory is probed twice and the `assets` subdirectory is never
probed; `data.json` must be a file. -/
def Experiment.verify (c : ExpCandidate) : Bool :=
  if !c.hasRepoDir then false
  else if !c.hasRepoDir then false
  else if !c.hasDataFile then false
  else true

/-- Embeds `Experiment.__init__`: raise on a failed `verify`, on `git.Repo`
failing to open the repository, or on the metadata file failing to parse;
otherwise succeed. -/
def Experiment.init (c : ExpCandidate) : Except String Unit :=
  if !(Experiment.verify c) then .error "Not a valid Experiment directory."
  else if !c.repoOpens then .error "InvalidGitRepositoryError"
  else if !c.dataParses then .error "JSONDecodeError"
  else .ok ()

/-- Embeds `Library.load_experiments`: consider each subdirectory of the storage
root, try to construct an `Experiment` from it, and silently skip any
candidate whose construction raises. -/
def Library.load_experiments (cands : List ExpCandidate) : List String :=
  (cands.filter (fun c => c.isDir)).foldl
    (fun acc c =>
      match Experiment.init c with
      | .error _ => acc
      | .ok _ => acc ++ [c.name]) []

/-- A fully valid candidate. -/
def goodCand : ExpCandidate := ⟨"mnist", true, true, true, true, true, true⟩

/-- A candidate with an initialized repository and a parseable metadata
file but **no** snapshot-storage (`assets`) subdirectory. -/
def noAssetsCand : ExpCandidate := ⟨"broken-layout", true, true, false, true, true, true⟩

/-- A candidate whose repository subdirectory is missing entirely. -/
def noRepoCand : ExpCandidate := ⟨"not-an-exp", true, false, false, false, false, false⟩

/-- Claim C9: `Experiment.verify` probes the repository subdirectory twice
instead of probing the snapshot-storage (`assets`) subdirectory, so a
candidate with `repo/` and `data.json` but no `assets/` passes the probe
and is loaded into the registry; invalid candidates are still skipped
without aborting the scan.  This contradicts the claim (and the layout in
the class's own docstring), which requires the assets subdirectory. -/
theorem load_experiments_accepts_missing_assets :
    noAssetsCand.hasAssetsDir = false ∧
    Experiment.verify noAssetsCand = true ∧
    Library.load_experiments [goodCand, noAssetsCand, noRepoCand] =
      ["mnist", "broken-layout"] := by
  exact ⟨rfl, rfl, rfl⟩

/-! ## Model-file registry (`register_model_file`, `fetch_last_model_file`) -/

/-- Embeds `os.path.join` for two components, POSIX semantics: an absolute second
component wins; otherwise a separator is inserted unless one is present. -/
def osPathJoin (a b : String) : String :=
  if pyStartsWith b "/" then b
  else if a = "" || pyEndsWith a "/" then a ++ b
  else a ++ "/" ++ b

/-- Embeds `Snapshot.make_path`: prepend the snapshot folder's path. -/
def Snapshot.make_path (s : Snapshot) (filename : String) : String :=
  osPathJoin s.root_path filename

/-- Embeds `Snapshot.register_model_file`: append to the ordered artifact list
and serialize immediately. -/
def Snapshot.register_model_file (fs : SnapFS) (filename : String) : SnapFS :=
  serializeFS { fs with snap := { fs.snap with model_files := fs.snap.model_files ++ [filename] } }

/-- Embeds `Snapshot.fetch_last_model_file`: `self.model_files[-1]` raises
`IndexError` exactly on the empty list, which the function converts to
`None`; otherwise the full path of the last entry is returned. -/
def Snapshot.fetch_last_model_file (s : Snapshot) : Option String :=
  match s.model_files.getLast? with
  | none => none
  | some filename => some (s.make_path filename)

/-- Claim C10: `fetch_last_model_file` returns `None` (rather than raising)
when the artifact list is empty; when the list is non-empty it returns the
root path joined with the last entry; and immediately after
`register_model_file f` it returns the full path of `f`, the most
recently registered model file. -/
theorem fetch_last_model_file_spec (s : Snapshot) (fs : SnapFS) (f : String) :
    (s.model_files = [] → Snapshot.fetch_last_model_file s = none) ∧
    (∀ l g, s.model_files = l ++ [g] →
      Snapshot.fetch_last_model_file s = some (s.make_path g)) ∧
    Snapshot.fetch_last_model_file (Snapshot.register_model_file fs f).snap =
      some (fs.snap.make_path f) := by
  refine ⟨?_, ?_, ?_⟩
  · intro h
    simp [Snapshot.fetch_last_model_file, h]
  · intro l g h
    simp [Snapshot.fetch_last_model_file, h, List.getLast?_concat]
  · show Snapshot.fetch_last_model_file
      { fs.snap with model_files := fs.snap.model_files ++ [f] } = _
    simp [Snapshot.fetch_last_model_file, List.getLast?_concat]
    rfl

/-- A snapshot with no model files registered yet. -/
def emptyModelSnap : Snapshot :=
  ⟨"/data/exp/assets/20190926-123819-ebyjb", some "ebyjb", some "f00dbabe",
   some "20190926-123819", some "test.py", some "initial", [], [], [], [], []⟩

/-- Closed instantiation of the model-file theorem: the empty registry
yields `none`, and after registering `epoch1.pt` the full joined path is
returned. -/
theorem fetch_last_model_file_spec_witness :
    Snapshot.fetch_last_model_file emptyModelSnap = none ∧
    Snapshot.fetch_last_model_file
        (Snapshot.register_model_file ⟨emptyModelSnap, []⟩ "epoch1.pt").snap =
      some "/data/exp/assets/20190926-123819-ebyjb/epoch1.pt" := by
  refine ⟨(fetch_last_model_file_spec emptyModelSnap ⟨emptyModelSnap, []⟩ "x").1 rfl, ?_⟩
  exact (fetch_last_model_file_spec emptyModelSnap ⟨emptyModelSnap, []⟩ "epoch1.pt").2.2

end Flammable
